import Mathlib

/-!
# Bradshaw Dwell Time Dashboard — verification of the cleaning/join pipeline

Shallow embedding of the data-cleaning and reconciliation pipeline of the
dashboard (`src/dashboard/cleaning_utils.py` and the upload pipeline of
`src/dashboard/app.py`).

Modelling conventions:
* Timestamps are whole minutes since 1970-01-01 00:00 (`Time := Int`); every
  datetime format the application parses has minute resolution.
* Datetime *parsing* (`pd.to_datetime` with `errors`-coercion) is modelled at
  the granularity of its result: a raw datetime cell is an `Option Time`
  (`none` = missing or unparseable, pandas `NaT`).
* Dwell values (`Dwell Time` in hours, two decimals) are exact hundredths of
  an hour, modelled as integer *centihours*: Python's `round(x, 2)` of a
  minute quantity `m/60` is the integer `round(100*m/60)` (ties to even,
  Python 3 `round`) divided by 100, so the pipeline's dwell arithmetic —
  fill-with-0, minute→hour conversion, positivity tests and row-wise `min` —
  is carried out on the integer numerators.
* A pandas column that may be absent from an uploaded file is modelled by a
  table-level `Bool` flag; indexing a missing column raises (`KeyError` /
  DuckDB binder error), modelled by `Except.error`, which the upload pipeline
  catches at its boundary exactly as `app.py` does with `try/except`.
-/

namespace Bradshaw

/-- Minutes since 1970-01-01 00:00. -/
abbrev Time := Int

/-! ## Rounding (Python `round(x, 2)`, carried out on centihours) -/

/-- Round `n / d` (for `d > 0`) to the nearest integer, ties to even
(Python 3 `round`). -/
def roundHalfEvenDiv (n d : Int) : Int :=
  let q := Int.fdiv n d
  let r := n - q * d
  if 2 * r < d then q
  else if d < 2 * r then q + 1
  else if q % 2 = 0 then q else q + 1

/-- `round(m / 60, 2)` of a minute quantity, as an integer number of
centihours: `round(100 * m / 60)` with ties to even. -/
def centiHours (m : Int) : Int := roundHalfEvenDiv (100 * m) 60

/-! ## Field normalisation (cleaning_utils, "Field Normalizer") -/

/-- Recursion core of `stripTags`; the fuel bounds the recursion depth (one
unit per consumed character) so the definition is structural and computable
by the kernel. -/
def stripTagsFuel : Nat → List Char → List Char
  | _, [] => []
  | 0, l => l
  | fuel + 1, c :: rest =>
    if c = '<' && rest.any (· = '>') then
      stripTagsFuel fuel ((rest.dropWhile (· ≠ '>')).drop 1)
    else c :: stripTagsFuel fuel rest

/-- `str.replace(r'<[^>]*>', '')`: remove HTML-tag-shaped substrings.  The
pattern matches a `<`, a run of non-`>` characters and a closing `>`; an
unmatched `<` (no later `>`) is kept verbatim.  Each step consumes at least
one character, so `l.length` fuel always suffices. -/
def stripTags (l : List Char) : List Char :=
  stripTagsFuel l.length l

/-- `str.replace(r'\n', ',')`. -/
def nlToComma (l : List Char) : List Char :=
  l.map fun c => if c = '\n' then ',' else c

/-- Recursion core of `wsRunsToComma` (fuel-structural, as above). -/
def wsRunsToCommaFuel : Nat → List Char → List Char
  | _, [] => []
  | 0, l => l
  | fuel + 1, c :: rest =>
    if c.isWhitespace then ',' :: wsRunsToCommaFuel fuel (rest.dropWhile Char.isWhitespace)
    else c :: wsRunsToCommaFuel fuel rest

/-- `str.replace(r'\s+', ',')`: each maximal whitespace run becomes one comma. -/
def wsRunsToComma (l : List Char) : List Char :=
  wsRunsToCommaFuel l.length l

/-- `str.replace(r'[^0-9,]', '')`. -/
def keepDigitsAndCommas (l : List Char) : List Char :=
  l.filter fun c => c.isDigit || c = ','

/-- `str.replace(r',,', ',')`: one non-overlapping left-to-right pass. -/
def collapseDoubleCommas : List Char → List Char
  | ',' :: ',' :: rest => ',' :: collapseDoubleCommas rest
  | c :: rest => c :: collapseDoubleCommas rest
  | [] => []

/-- `str.lstrip(',')`. -/
def lstripCommas (l : List Char) : List Char :=
  l.dropWhile (· = ',')

/-- `str.rstrip(',')`. -/
def rstripCommas (l : List Char) : List Char :=
  (l.reverse.dropWhile (· = ',')).reverse

/-- Python/pandas `str.strip()`: drop leading and trailing whitespace.
(Defined over the character list so that it is kernel-computable.) -/
def strTrim (s : String) : String :=
  String.mk (((s.data.dropWhile Char.isWhitespace).reverse.dropWhile Char.isWhitespace).reverse)

/-- Python `str.lower()` (ASCII, which covers every status literal used). -/
def strToLower (s : String) : String :=
  String.mk (s.data.map Char.toLower)

/-- The `Sales Order(s)` normalisation chain of `clean_open_dock`
(cleaning_utils.py lines 5-12): strip, remove HTML tags, newlines to commas,
whitespace runs to commas, keep only digits and commas, collapse double
commas, strip leading/trailing commas. -/
def cleanSalesOrders (s : String) : String :=
  String.mk <|
    rstripCommas <| lstripCommas <| collapseDoubleCommas <|
      keepDigitsAndCommas <| wsRunsToComma <| nlToComma <| stripTags (strTrim s).data

/-- Shipment-id normalisation used by the order and trailer cleaners:
`astype(str).str.replace(',', '')` followed by `str.extract(r'(\d+)')` with
`fillna('')` — i.e. remove commas, then the first contiguous digit run,
or the empty string when there is none. -/
def extractFirstDigits (s : String) : String :=
  let noCommas := s.data.filter (· ≠ ',')
  String.mk ((noCommas.dropWhile (fun c => !c.isDigit)).takeWhile Char.isDigit)

/-! ## Calendar (for `Scheduled Date`, `Week`, `Month`) -/

/-- Civil date from days since 1970-01-01 (proleptic Gregorian). -/
def civilFromDays (z : Int) : Int × Nat × Nat :=
  let z2 := z + 719468
  let era := Int.fdiv z2 146097
  let doe := (z2 - era * 146097).toNat
  let yoe := (doe - doe / 1460 + doe / 36524 - doe / 146096) / 365
  let doy := doe - (365 * yoe + yoe / 4 - yoe / 100)
  let mp := (5 * doy + 2) / 153
  let d := doy - (153 * mp + 2) / 5 + 1
  let m := if mp < 10 then mp + 3 else mp - 9
  ((yoe : Int) + era * 400 + (if m ≤ 2 then 1 else 0), m, d)

/-- Days since 1970-01-01 of a civil date. -/
def daysFromCivil (y : Int) (m d : Nat) : Int :=
  let y2 := if m ≤ 2 then y - 1 else y
  let era := Int.fdiv y2 400
  let yoe := (y2 - era * 400).toNat
  let mp := if 2 < m then m - 3 else m + 9
  let doy := (153 * mp + 2) / 5 + d - 1
  let doe := yoe * 365 + yoe / 4 - yoe / 100 + doy
  era * 146097 + (doe : Int) - 719468

/-- Day index (since epoch) of a timestamp in minutes. -/
def dayOf (t : Time) : Int := Int.fdiv t 1440

/-- Calendar year of a timestamp. -/
def yearOf (t : Time) : Int := (civilFromDays (dayOf t)).1

/-- Calendar month of a timestamp (`Timestamp.month`). -/
def monthOf (t : Time) : Nat := (civilFromDays (dayOf t)).2.1

/-- Day of month of a timestamp. -/
def domOf (t : Time) : Nat := (civilFromDays (dayOf t)).2.2

/-- Zero-padded two-digit rendering. -/
def padTwo (n : Nat) : String :=
  if n < 10 then "0" ++ toString n else toString n

/-- `strftime("%m-%d-%Y")`. -/
def fmtScheduledDate (t : Time) : String :=
  padTwo (monthOf t) ++ "-" ++ padTwo (domOf t) ++ "-" ++ toString (yearOf t)

/-- ISO-8601 week number (`Timestamp.isocalendar().week`): the week number is
the index of the week's Thursday among the Thursdays of its civil year. -/
def isoWeekOf (t : Time) : Nat :=
  let z := dayOf t
  let wd := (z + 3).emod 7
  let th := z - wd + 3
  let y := (civilFromDays th).1
  let n := th - daysFromCivil y 1 1 + 1
  ((n + 6).fdiv 7).toNat

/-! ## Raw source tables

Only the columns consumed by the pipeline (cleaners plus reconciliation join)
are modelled.  The dock file's `Arrival/Departure Date/Time` columns are
omitted: `clean_open_dock` only assembles them into `Dock Checkin/Checkout
DateTime` columns that the stage-1 SQL join never selects, so they are dead
for the fact table. -/

/-- One row of the uploaded Open Dock CSV. -/
structure RawDockRow where
  salesOrders : String
  direction : Option String
  status : Option String
  dwellMins : Option Int
deriving DecidableEq, Repr

/-- The uploaded Open Dock table.  The `has*` flags model column presence:
`Direction`, `Status` and `Dwell Time (mins)` are genuinely optional in
`clean_open_dock` (guarded by `in od_df.columns`), while indexing a missing
`Sales Order(s)` column raises a `KeyError`. -/
structure RawDockTable where
  rows : List RawDockRow
  hasSalesOrders : Bool
  hasDirection : Bool
  hasStatus : Bool
  hasDwellMins : Bool
deriving DecidableEq, Repr

/-- One row of the uploaded Open Order CSV (`Appt Date and Time` modelled
post-parse, `none` for an unparseable or missing cell). -/
structure RawOrderRow where
  apptRaw : Option Time
  soNum : String
  shipmentNbr : String
  orderStatus : String
deriving DecidableEq, Repr

/-- The uploaded Open Order table; all four consumed columns are required
(indexing them unconditionally raises `KeyError` when absent). -/
structure RawOrderTable where
  rows : List RawOrderRow
  hasAppt : Bool
  hasSO : Bool
  hasShipment : Bool
  hasStatus : Bool
deriving DecidableEq, Repr

/-- One row of the uploaded Trailer Activity CSV (datetime cells post-parse). -/
structure RawTrailerRow where
  checkin : Option Time
  appt : Option Time
  checkout : Option Time
  loaded : Option Time
  carrier : String
  visitType : String
  activityType : String
  shipmentIdRaw : String
deriving DecidableEq, Repr

/-- The uploaded Trailer Activity table.  `hasCols` models presence of the
seven columns the cleaner indexes directly; `CARRIER` is only ever selected
by the stage-2 SQL join, so its absence surfaces there instead. -/
structure RawTrailerTable where
  rows : List RawTrailerRow
  hasCols : Bool
  hasCarrier : Bool
deriving DecidableEq, Repr

/-! ## Dock cleaner (`clean_open_dock`) -/

/-- Output row of `clean_open_dock` (columns `SO Number`, `Dwell Time`,
`Status` after the renames of lines 50-54). -/
structure CleanDockRow where
  soNumber : String
  dwellTime : Option Int
  status : Option String
deriving DecidableEq, Repr

/-- Output table of `clean_open_dock`; the `Status` / `Dwell Time` columns
exist in the output iff they existed in the input. -/
structure CleanDockTable where
  rows : List CleanDockRow
  hasStatus : Bool
  hasDwellTime : Bool
deriving DecidableEq, Repr

/-- The status values dropped at cleaning_utils.py line 24.  The first entry
is the literal `'Arrived,'` from the source — including its trailing comma. -/
def droppedStatuses : List String := ["Arrived,", "Cancelled", "InProgress", "Scheduled"]

/-- `Status.isin(droppedStatuses)` for a nullable cell (`NaN` is never `isin`). -/
def statusDropped (s : Option String) : Bool :=
  match s with
  | some v => droppedStatuses.contains v
  | none => false

/-- `fillna(0)` then minutes→hours conversion of `Dwell Time` (lines 57-59),
in centihours. -/
def dockDwellHours (m : Option Int) : Int :=
  centiHours (m.getD 0)

/-- `clean_open_dock` (cleaning_utils.py lines 4-64): normalise
`Sales Order(s)`, drop `Direction == 'Inbound'` rows (when the column
exists), drop rows with an empty normalised reference, drop rows whose
`Status` is in `droppedStatuses` (when the column exists), convert dwell
minutes to hours with missing values filled with 0 (when the column exists),
and strip the final `SO Number`. -/
def clean_open_dock (t : RawDockTable) : Except String CleanDockTable :=
  if t.hasSalesOrders then
    let r0 := t.rows.map fun r => { r with salesOrders := cleanSalesOrders r.salesOrders }
    let r1 := if t.hasDirection then r0.filter (fun r => !(r.direction == some "Inbound")) else r0
    let r2 := r1.filter fun r => r.salesOrders != ""
    let r3 := if t.hasStatus then r2.filter (fun r => !statusDropped r.status) else r2
    let r4 := r3.map fun r =>
      ({ soNumber := strTrim r.salesOrders
         dwellTime := if t.hasDwellMins then some (dockDwellHours r.dwellMins) else none
         status := if t.hasStatus then r.status else none } : CleanDockRow)
    .ok { rows := r4, hasStatus := t.hasStatus, hasDwellTime := t.hasDwellMins }
  else .error "KeyError: Sales Order(s)"

/-! ## Order cleaner (`clean_open_order`) -/

/-- Intermediate order row once `Appt Date and Time` has survived parsing
(`dropna` of line 81 refines the type). -/
structure OrderStageRow where
  appt : Time
  soNum : String
  shipmentNbr : String
  orderStatus : String
deriving DecidableEq, Repr

/-- Output row of `clean_open_order` (after the renames of line 95). -/
structure CleanOrderRow where
  apptDateTime : Time
  soNumber : String
  shipmentId : String
deriving DecidableEq, Repr

/-- Recursion core of `dedupByKey` (fuel-structural: each step consumes one
row, so `l.length` fuel always suffices). -/
def dedupByKeyFuel {α κ : Type} [DecidableEq κ] (k : α → κ) : Nat → List α → List α
  | _, [] => []
  | 0, l => l
  | fuel + 1, x :: xs => x :: dedupByKeyFuel k fuel (xs.filter fun y => k y != k x)

/-- Keep the first row of each key group, in list order
(`drop_duplicates(subset=key, keep='first')`). -/
def dedupByKey {α κ : Type} [DecidableEq κ] (k : α → κ) (l : List α) : List α :=
  dedupByKeyFuel k l.length l

/-- Sort key of `clean_open_order` line 99: `Appt DateTime` descending, then
`Shipment ID` ascending. -/
def orderSortLE (a b : CleanOrderRow) : Prop :=
  b.apptDateTime < a.apptDateTime ∨
    (a.apptDateTime = b.apptDateTime ∧ a.shipmentId ≤ b.shipmentId)

instance : DecidableRel orderSortLE := fun a b =>
  inferInstanceAs (Decidable (_ ∨ _))

/-- The deduplication passes of `clean_open_order` lines 99-101: sort, then
keep the first row per `Shipment ID`, then the first row per `SO Number`. -/
def orderDeduped (l : List CleanOrderRow) : List CleanOrderRow :=
  dedupByKey (·.soNumber) <|
    dedupByKey (·.shipmentId) <| List.insertionSort orderSortLE l

/-- `clean_open_order` (cleaning_utils.py lines 66-106): parse the
appointment and drop unparseable rows, strip `SO #` and drop empties,
normalise `Shipment Nbr` to its first digit run (empty string when
non-numeric — note: such rows are *not* dropped), keep case-insensitively
`shipped` orders, rename, sort and deduplicate.  The final
`dropna(subset=['SO Number', 'Shipment ID'])` of line 104 is a no-op: both
columns hold non-null strings at that point (`fillna('')` ran at line 89). -/
def clean_open_order (t : RawOrderTable) : Except String (List CleanOrderRow) :=
  if t.hasAppt && t.hasSO && t.hasShipment && t.hasStatus then
    let r0 := t.rows.filterMap fun r =>
      match r.apptRaw with
      | some a => some ({ appt := a, soNum := r.soNum, shipmentNbr := r.shipmentNbr
                          orderStatus := r.orderStatus } : OrderStageRow)
      | none => none
    let r1 := r0.map fun r => { r with soNum := strTrim r.soNum }
    let r2 := r1.filter fun r => r.soNum != ""
    let r3 := r2.map fun r => { r with shipmentNbr := extractFirstDigits r.shipmentNbr }
    let r4 := r3.filter fun r => strToLower (strTrim r.orderStatus) == "shipped"
    let r5 := r4.map fun r =>
      ({ apptDateTime := r.appt, soNumber := r.soNum, shipmentId := r.shipmentNbr } : CleanOrderRow)
    .ok (orderDeduped r5)
  else .error "KeyError: Open Order column"

/-! ## Trailer cleaner (`clean_trailer_activity`) -/

/-- Intermediate trailer row after the filters and the `dropna` of line 136
(`APPOINTMENT/CHECKOUT/CHECKIN DATE TIME` refined to non-null; the load
timestamp `Date/Time` may remain null). -/
structure TrailerStageRow where
  checkin : Time
  appt : Time
  checkout : Time
  loaded : Option Time
  carrier : String
  visitType : String
  activityType : String
  shipmentId : String
deriving DecidableEq, Repr

/-- Output row of `clean_trailer_activity` (after the projection of line 171
and the renames of line 174; `APPOINTMENT DATE TIME` and `ACTIVITY TYPE` are
dropped, derived columns added). -/
structure TrailerRow where
  checkin : Time
  checkout : Time
  carrier : String
  visitType : String
  loaded : Option Time
  shipmentId : String
  requiredTime : Time
  compliance : String
  scheduledDate : String
  week : Nat
  month : Nat
deriving DecidableEq, Repr

/-- Output table of `clean_trailer_activity`; `hasCarrier` records whether
the `CARRIER` column was present (its absence only surfaces in the stage-2
join). -/
structure TrailerTable where
  rows : List TrailerRow
  hasCarrier : Bool
deriving DecidableEq, Repr

/-- The filter stages of `clean_trailer_activity` lines 120-136: keep
`ACTIVITY TYPE == 'CLOSED'`, keep `VISIT TYPE` in `{Pickup Load, Live Load}`,
normalise `SHIPMENT_ID` to its first digit run and drop empties, then drop
rows missing appointment, checkout or checkin. -/
def trailer_filtered (t : RawTrailerTable) : List TrailerStageRow :=
  ((((t.rows.filter fun r => r.activityType == "CLOSED").filter
      fun r => decide (r.visitType ∈ ["Pickup Load", "Live Load"])).map
      fun r => { r with shipmentIdRaw := extractFirstDigits r.shipmentIdRaw }).filter
      fun r => r.shipmentIdRaw != "").filterMap fun r =>
    match r.appt, r.checkout, r.checkin with
    | some a, some co, some ci =>
      some ({ checkin := ci, appt := a, checkout := co, loaded := r.loaded
              carrier := r.carrier, visitType := r.visitType
              activityType := r.activityType, shipmentId := r.shipmentIdRaw } : TrailerStageRow)
    | _, _, _ => none

/-- Descending comparison on nullable load timestamps: pandas
`sort_values(ascending=False)` places `NaT` last, so `none` ranks below every
concrete timestamp. -/
def loadGT : Option Time → Option Time → Prop
  | some a, some b => b < a
  | some _, none => True
  | none, _ => False

instance : ∀ x y : Option Time, Decidable (loadGT x y) := fun x y =>
  match x, y with
  | some a, some b => inferInstanceAs (Decidable (b < a))
  | some _, none => .isTrue trivial
  | none, some _ => .isFalse id
  | none, none => .isFalse id

/-- `x` has a load timestamp at least as late as `y` (with `none` = `NaT`
ranking below everything). -/
def loadGE : Option Time → Option Time → Prop
  | some a, some b => b ≤ a
  | some _, none => True
  | none, some _ => False
  | none, none => True

/-- Sort key of `clean_trailer_activity` line 139: `Date/Time` descending
(nulls last), then `SHIPMENT_ID` ascending. -/
def trailerSortLE (a b : TrailerStageRow) : Prop :=
  loadGT a.loaded b.loaded ∨ (a.loaded = b.loaded ∧ a.shipmentId ≤ b.shipmentId)

instance : DecidableRel trailerSortLE := fun a b =>
  inferInstanceAs (Decidable (_ ∨ _))

instance : IsTotal TrailerStageRow trailerSortLE where
  total a b := by
    have hTot : ∀ x y : Option Time, x ≠ y → loadGT x y ∨ loadGT y x := by
      intro x y h
      match x, y with
      | none, none => exact absurd rfl h
      | some u, none => exact Or.inl trivial
      | none, some v => exact Or.inr trivial
      | some u, some v =>
        rcases lt_trichotomy u v with hlt | heq | hgt
        · exact Or.inr hlt
        · exact absurd (by rw [heq]) h
        · exact Or.inl hgt
    by_cases h : a.loaded = b.loaded
    · rcases le_total a.shipmentId b.shipmentId with hs | hs
      · exact Or.inl (Or.inr ⟨h, hs⟩)
      · exact Or.inr (Or.inr ⟨h.symm, hs⟩)
    · rcases hTot _ _ h with hgt | hgt
      · exact Or.inl (Or.inl hgt)
      · exact Or.inr (Or.inl hgt)

instance : IsTrans TrailerStageRow trailerSortLE where
  trans a b c hab hbc := by
    have hTr : ∀ x y z : Option Time, loadGT x y → loadGT y z → loadGT x z := by
      intro x y z hxy hyz
      match x, y, z with
      | none, _, _ => exact absurd hxy id
      | some u, none, _ => exact absurd hyz id
      | some u, some v, none => exact trivial
      | some u, some v, some w => exact lt_trans hyz hxy
    rcases hab with hab | ⟨hab, habs⟩
    · rcases hbc with hbc | ⟨hbc, hbcs⟩
      · exact Or.inl (hTr _ _ _ hab hbc)
      · exact Or.inl (hbc ▸ hab)
    · rcases hbc with hbc | ⟨hbc, hbcs⟩
      · exact Or.inl (hab ▸ hbc)
      · exact Or.inr ⟨hab.trans hbc, le_trans habs hbcs⟩

/-- Line 139: the sorted survivors. -/
def trailer_sorted (t : RawTrailerTable) : List TrailerStageRow :=
  List.insertionSort trailerSortLE (trailer_filtered t)

/-- Line 140: first row per `SHIPMENT_ID` of the sorted survivors. -/
def trailer_deduped (t : RawTrailerTable) : List TrailerStageRow :=
  dedupByKey (·.shipmentId) (trailer_sorted t)

/-- Derived columns and final projection (lines 142-181): `Required Time` is
the appointment plus 15 minutes for a `Live Load`, plus 24 hours otherwise;
`Compliance` is `On Time` iff the (non-null, by the line-136 `dropna`)
checkin is at most the required time; period keys come from the appointment. -/
def mkFinal (s : TrailerStageRow) : TrailerRow :=
  let rq := s.appt + (if s.visitType = "Live Load" then 15 else 1440)
  { checkin := s.checkin
    checkout := s.checkout
    carrier := s.carrier
    visitType := s.visitType
    loaded := s.loaded
    shipmentId := s.shipmentId
    requiredTime := rq
    compliance := if s.checkin ≤ rq then "On Time" else "Late"
    scheduledDate := fmtScheduledDate s.appt
    week := isoWeekOf s.appt
    month := monthOf s.appt }

/-- `clean_trailer_activity` (cleaning_utils.py lines 108-183). -/
def clean_trailer_activity (t : RawTrailerTable) : Except String TrailerTable :=
  if t.hasCols then
    .ok { rows := (trailer_deduped t).map mkFinal, hasCarrier := t.hasCarrier }
  else .error "KeyError: Trailer Activity column"

/-! ## Reconciliation join (app.py lines 61-167) -/

/-- Stage-1 result row (app.py lines 82-100): dock data left-joined to order
data on exact `SO Number` equality, trailer-independent columns only. -/
structure MergedRow where
  soNumber : String
  dwellTime : Option Int
  eventStatus : Option String
  appointment : Option Time
  shipmentId : Option String
deriving DecidableEq, Repr

/-- Stage-1 row after the `Shipment ID` normalisation of app.py line 103
(`astype(str).str.strip()`, which turns a SQL `NULL` into the literal string
`"None"`). -/
structure Merged2Row where
  soNumber : String
  dwellTime : Option Int
  eventStatus : Option String
  appointment : Option Time
  shipmentId : String
deriving DecidableEq, Repr

/-- Pandas `astype(str)` on a nullable string cell. -/
def pdAstypeStr : Option String → String
  | some s => s
  | none => "None"

/-- App.py line 103. -/
def normShip (m : MergedRow) : Merged2Row :=
  { soNumber := m.soNumber, dwellTime := m.dwellTime, eventStatus := m.eventStatus
    appointment := m.appointment, shipmentId := strTrim (pdAstypeStr m.shipmentId) }

/-- Stage-1 left join (app.py lines 82-93): one output row per dock row and
matching order row, a null-extended row when no order row matches.  The SQL
selects `open_dock."Status"` and `open_dock."Dwell Time"`, so it fails with a
binder error when the dock upload lacked those columns. -/
def merge1 (d : CleanDockTable) (o : List CleanOrderRow) : Except String (List MergedRow) :=
  if d.hasStatus && d.hasDwellTime then
    .ok <| List.flatten <| d.rows.map fun dr =>
      match o.filter (fun orow => orow.soNumber == dr.soNumber) with
      | [] => [{ soNumber := dr.soNumber, dwellTime := dr.dwellTime
                 eventStatus := dr.status, appointment := none, shipmentId := none }]
      | ms => ms.map fun orow =>
          { soNumber := dr.soNumber, dwellTime := dr.dwellTime, eventStatus := dr.status
            appointment := some orow.apptDateTime, shipmentId := some orow.shipmentId }
  else .error "Binder Error: open_dock column"

/-- Fact row before the post-join policy (the stage-2 SELECT of app.py lines
107-127 plus the projection of lines 130-137), `Event Status` still present. -/
structure FactRow0 where
  shipmentId : Option String
  soNumber : String
  appointment : Option Time
  requiredTime : Option Time
  checkin : Option Time
  checkout : Option Time
  carrier : Option String
  visitType : Option String
  loaded : Option Time
  compliance : Option String
  dwellTime : Option Int
  eventStatus : Option String
  scheduledDate : Option String
  week : Option Nat
  month : Option Nat
deriving DecidableEq, Repr

/-- Final fact row (`Event Status` dropped at app.py line 144). -/
structure FactRow where
  shipmentId : Option String
  soNumber : String
  appointment : Option Time
  requiredTime : Option Time
  checkin : Option Time
  checkout : Option Time
  carrier : Option String
  visitType : Option String
  loaded : Option Time
  compliance : Option String
  dwellTime : Option Int
  scheduledDate : Option String
  week : Option Nat
  month : Option Nat
deriving DecidableEq, Repr

/-- Stage-2 left join (app.py lines 107-127): stage-1 rows left-joined to the
cleaned trailer table on exact `Shipment ID` equality.  (The `str.strip()` of
line 104 runs on the pandas frame *after* the DuckDB `trailer_report` table
was materialised at line 79, and trailer ids are digit runs anyway, so the
trailer-side key is the cleaned id itself.)  Selecting
`trailer_report.Carrier` fails when the trailer upload lacked `CARRIER`. -/
def merge2 (m : List Merged2Row) (t : TrailerTable) : Except String (List FactRow0) :=
  if t.hasCarrier then
    .ok <| List.flatten <| m.map fun mr =>
      match t.rows.filter (fun tr => tr.shipmentId == mr.shipmentId) with
      | [] => [{ shipmentId := none, soNumber := mr.soNumber, appointment := mr.appointment
                 requiredTime := none, checkin := none, checkout := none, carrier := none
                 visitType := none, loaded := none, compliance := none
                 dwellTime := mr.dwellTime, eventStatus := mr.eventStatus
                 scheduledDate := none, week := none, month := none }]
      | ms => ms.map fun tr =>
          { shipmentId := some tr.shipmentId, soNumber := mr.soNumber
            appointment := mr.appointment, requiredTime := some tr.requiredTime
            checkin := some tr.checkin, checkout := some tr.checkout
            carrier := some tr.carrier, visitType := some tr.visitType
            loaded := tr.loaded, compliance := some tr.compliance
            dwellTime := mr.dwellTime, eventStatus := mr.eventStatus
            scheduledDate := some tr.scheduledDate, week := some tr.week
            month := some tr.month }
  else .error "Binder Error: trailer_report.Carrier"

/-! ## Post-join policy and derived dwell time (app.py lines 139-164) -/

/-- App.py lines 139-141: where `Event Status == 'NoShow'`, force
`Compliance` to `'No Show'` and null out checkin/checkout/load/dwell. -/
def applyNoShow (r : FactRow0) : FactRow0 :=
  if r.eventStatus == some "NoShow" then
    { r with compliance := some "No Show", checkin := none, checkout := none
             loaded := none, dwellTime := none }
  else r

/-- App.py line 144: drop the `Event Status` column. -/
def dropEventStatus (r : FactRow0) : FactRow :=
  { shipmentId := r.shipmentId, soNumber := r.soNumber, appointment := r.appointment
    requiredTime := r.requiredTime, checkin := r.checkin, checkout := r.checkout
    carrier := r.carrier, visitType := r.visitType, loaded := r.loaded
    compliance := r.compliance, dwellTime := r.dwellTime
    scheduledDate := r.scheduledDate, week := r.week, month := r.month }

/-- App.py lines 147-150: the excluded-carrier codes. -/
def excludedCarriers : List String :=
  ["AACT", "DIMS", "EXLA", "SAIA", "FXFE", "FXLA", "FXNL", "F106", "F107",
   "F109", "F110", "F111", "F112", "F117", "ODFL", "U743", "U746", "U748", "VQXX", "CTII"]

/-- App.py line 151: `~Carrier.isin(excluded)` (a null carrier is kept). -/
def carrierKept (r : FactRow) : Bool :=
  match r.carrier with
  | some c => !excludedCarriers.contains c
  | none => true

/-- App.py lines 154-155: replace an empty `Shipment ID` with null, then drop
null `Shipment ID` rows. -/
def shipmentKept (r : FactRow) : Bool :=
  match r.shipmentId with
  | some s => s != ""
  | none => false

/-- The branch structure of the `dwell_time` function (app.py lines 21-35)
before the non-positivity coercion: null when the load timestamp is null,
`(load - appointment)` hours for `On Time`, `(load - checkin)` hours for
`Late`, null otherwise.  A null appointment/checkin inside a taken branch
propagates (`NaT` arithmetic yields `NaN`). -/
def dwell_base (r : FactRow) : Option Int :=
  match r.loaded with
  | none => none
  | some l =>
    if r.compliance = some "On Time" then
      match r.appointment with
      | some a => some (centiHours (l - a))
      | none => none
    else if r.compliance = some "Late" then
      match r.checkin with
      | some c => some (centiHours (l - c))
      | none => none
    else none

/-- `dwell_time` (app.py lines 21-40): the branch value, with a non-null
result `≤ 0` coerced to null (lines 37-38). -/
def dwell_time (r : FactRow) : Option Int :=
  match dwell_base r with
  | some v => if v ≤ 0 then none else some v
  | none => none

/-- Row-wise `DataFrame.min(axis=1)` over the two dwell columns (app.py line
161): nulls are skipped, the minimum is taken when both are present. -/
def minOpt (a b : Option Int) : Option Int :=
  match a, b with
  | none, none => none
  | some x, none => some x
  | none, some y => some y
  | some x, some y => some (min x y)

/-- App.py lines 158-164: compute `Calculated Dwell Time` and fold it into
`Dwell Time` via the row-wise minimum. -/
def applyDwell (r : FactRow) : FactRow :=
  { r with dwellTime := minOpt r.dwellTime (dwell_time r) }

/-- The post-join policy block (app.py lines 139-164). -/
def postJoin (l : List FactRow0) : List FactRow :=
  ((((l.map applyNoShow).map dropEventStatus).filter carrierKept).filter shipmentKept).map
    applyDwell

/-! ## The upload pipeline boundary (app.py lines 61-170) -/

/-- The three uploaded files. -/
structure Inputs where
  dock : RawDockTable
  order : RawOrderTable
  trailer : RawTrailerTable
deriving DecidableEq, Repr

/-- One clean-join-derive run (the body of the `try:` block, app.py lines
62-167).  When stage 1 produces an empty frame the guard of line 96 skips the
column rename, so the stage-2 SQL fails to bind `merged_df."SO Number"`; when
stage 2 is empty the guard of line 130 skips the post-join block and the
session-state store, modelled by the `none` result. -/
def pipelineRun (i : Inputs) : Except String (Option (List FactRow)) :=
  match clean_open_dock i.dock with
  | .error e => .error e
  | .ok d =>
    match clean_open_order i.order with
    | .error e => .error e
    | .ok o =>
      match clean_trailer_activity i.trailer with
      | .error e => .error e
      | .ok t =>
        match merge1 d o with
        | .error e => .error e
        | .ok m1 =>
          if m1.isEmpty then .error "Binder Error: merged_df.SO Number" else
            match merge2 (m1.map normShip) t with
            | .error e => .error e
            | .ok m2 => .ok (if m2.isEmpty then none else some (postJoin m2))

/-- The fact table a given upload produces (empty when the run fails or the
store is skipped). -/
def factOf (i : Inputs) : List FactRow :=
  match pipelineRun i with
  | .ok (some l) => l
  | _ => []

/-- The upload boundary (app.py lines 61-170): a successful non-empty run
replaces the session-state fact table; an exception is caught, reported as a
warning (the `Bool` component) and leaves the previous fact table untouched;
an empty stage-2 result skips the store. -/
def runUpload (prev : List FactRow) (i : Inputs) : List FactRow × Bool :=
  match pipelineRun i with
  | .error _ => (prev, true)
  | .ok none => (prev, false)
  | .ok (some ft) => (ft, false)

/-- "Null or strictly positive" — the shape claimed for dwell values. -/
def dwellOk (o : Option Int) : Prop :=
  match o with
  | none => True
  | some v => 0 < v

instance : ∀ o : Option Int, Decidable (dwellOk o) := fun o =>
  match o with
  | none => .isTrue trivial
  | some v => inferInstanceAs (Decidable (0 < v))

/-! ## Row-set views of the cleaner outputs and the fact table -/

/-- Rows of the cleaned dock table (`[]` when the cleaner raises). -/
def dockRowsOf (t : RawDockTable) : List CleanDockRow :=
  match clean_open_dock t with
  | .ok c => c.rows
  | .error _ => []

/-- Rows of the cleaned order table (`[]` when the cleaner raises). -/
def orderRowsOf (t : RawOrderTable) : List CleanOrderRow :=
  match clean_open_order t with
  | .ok l => l
  | .error _ => []

/-- Rows of the cleaned trailer table (`[]` when the cleaner raises). -/
def trailerRowsOf (t : RawTrailerTable) : List TrailerRow :=
  match clean_trailer_activity t with
  | .ok tt => tt.rows
  | .error _ => []

/-! ## Concrete example uploads

Minute encoding of the timestamps used in the spec's examples: the
appointment is minute `600` of day 0, checkin `605`, load `720` (two hours
after the appointment, as in the dwell-fallback example) and checkout `780`. -/

/-- An all-null fact row, used as the `headD` default when reading off a
computed fact table. -/
def defFactRow : FactRow :=
  { shipmentId := none, soNumber := "", appointment := none, requiredTime := none
    checkin := none, checkout := none, carrier := none, visitType := none
    loaded := none, compliance := none, dwellTime := none, scheduledDate := none
    week := none, month := none }

/-- A placeholder trailer row, used as the `headD` default. -/
def defTrailerRow : TrailerRow :=
  { checkin := 0, checkout := 0, carrier := "", visitType := "", loaded := none
    shipmentId := "", requiredTime := 0, compliance := "", scheduledDate := ""
    week := 0, month := 0 }

/-- Order upload: one shipped order, SO `1001`, shipment `500`. -/
def exOrderStd : RawOrderTable :=
  { rows := [{ apptRaw := some 600, soNum := "1001", shipmentNbr := "500"
               orderStatus := "Shipped" }]
    hasAppt := true, hasSO := true, hasShipment := true, hasStatus := true }

/-- Trailer upload: one closed Live Load for shipment `500`, checked in 5
minutes after the appointment (so on time against the 15-minute grace) and
loaded two hours after the appointment. -/
def exTrailerStd : RawTrailerTable :=
  { rows := [{ checkin := some 605, appt := some 600, checkout := some 780
               loaded := some 720, carrier := "ABCD", visitType := "Live Load"
               activityType := "CLOSED", shipmentIdRaw := "500" }]
    hasCols := true, hasCarrier := true }

/-- Dock upload whose single completed event has a *missing* dwell-minutes
cell (filled with 0 by the cleaner). -/
def exDockC1 : RawDockTable :=
  { rows := [{ salesOrders := "1001", direction := some "Outbound"
               status := some "Completed", dwellMins := none }]
    hasSalesOrders := true, hasDirection := true, hasStatus := true, hasDwellMins := true }

/-- Dock upload with 90 dwell minutes (1.5 h, the spec's fallback example). -/
def exDockPos : RawDockTable :=
  { rows := [{ salesOrders := "1001", direction := some "Outbound"
               status := some "Completed", dwellMins := some 90 }]
    hasSalesOrders := true, hasDirection := true, hasStatus := true, hasDwellMins := true }

/-- Dock upload whose event is a `NoShow`. -/
def exDockNS : RawDockTable :=
  { rows := [{ salesOrders := "1001", direction := some "Outbound"
               status := some "NoShow", dwellMins := some 90 }]
    hasSalesOrders := true, hasDirection := true, hasStatus := true, hasDwellMins := true }

/-- Upload triple with the missing dwell minutes. -/
def exInputsC1 : Inputs := { dock := exDockC1, order := exOrderStd, trailer := exTrailerStd }

/-- Upload triple realising the spec's dwell fallback example. -/
def exInputsPos : Inputs := { dock := exDockPos, order := exOrderStd, trailer := exTrailerStd }

/-- Upload triple with a `NoShow` dock event. -/
def exInputsNS : Inputs := { dock := exDockNS, order := exOrderStd, trailer := exTrailerStd }

/-- The first fact row of the fallback-example run. -/
def exFactPos : FactRow := (factOf exInputsPos).headD defFactRow

/-- The first fact row of the `NoShow` run. -/
def exFactNS : FactRow := (factOf exInputsNS).headD defFactRow

/-- The first cleaned trailer row of the standard trailer upload. -/
def exTrailerRow0 : TrailerRow := (trailerRowsOf exTrailerStd).headD defTrailerRow

/-- Dock upload with one row per dropped-status candidate: `Arrived`,
`Cancelled`, `InProgress` and `Scheduled`. -/
def exDockC7 : RawDockTable :=
  { rows := [{ salesOrders := "1001", direction := some "Outbound"
               status := some "Arrived", dwellMins := some 30 },
             { salesOrders := "1002", direction := some "Outbound"
               status := some "Cancelled", dwellMins := some 30 },
             { salesOrders := "1003", direction := some "Outbound"
               status := some "InProgress", dwellMins := some 30 },
             { salesOrders := "1004", direction := some "Outbound"
               status := some "Scheduled", dwellMins := some 30 }]
    hasSalesOrders := true, hasDirection := true, hasStatus := true, hasDwellMins := true }

/-- Order upload whose single shipped row has a non-numeric shipment value. -/
def exOrderC8 : RawOrderTable :=
  { rows := [{ apptRaw := some 600, soNum := "777", shipmentNbr := "ABC"
               orderStatus := "Shipped" }]
    hasAppt := true, hasSO := true, hasShipment := true, hasStatus := true }

/-- Order upload missing the `Appt Date and Time` column. -/
def exOrderBad : RawOrderTable :=
  { rows := [], hasAppt := false, hasSO := true, hasShipment := true, hasStatus := true }

/-- Upload triple whose order file is missing a required column, so the
pipeline raises mid-cleaning. -/
def exInputsBad : Inputs := { dock := exDockPos, order := exOrderBad, trailer := exTrailerStd }

/-- A non-empty previously stored fact table. -/
def exPrev : List FactRow := [defFactRow]

/-- The spec's dwell-fallback example as a joined fact row, minute-encoded
with the appointment (2024-01-02T03:00 in the spec) at minute 600 and the
load timestamp (05:00, two hours later) at minute 720; the dock-provided
dwell is 1.5 h = 150 centihours. -/
def exFactC2 : FactRow :=
  { defFactRow with
      shipmentId := some "500", soNumber := "1001", appointment := some 600
      requiredTime := some 615, checkin := some 605, checkout := some 780
      carrier := some "ABCD", visitType := some "Live Load", loaded := some 720
      compliance := some "On Time", dwellTime := some 150 }

/-! ## Properties of `dedupByKey` -/

theorem dedupByKeyFuel_sublist {α κ : Type} [DecidableEq κ] (k : α → κ) :
    ∀ (n : Nat) (l : List α), List.Sublist (dedupByKeyFuel k n l) l := by
  intro n
  induction n with
  | zero =>
    intro l
    cases l with
    | nil => simp [dedupByKeyFuel]
    | cons x xs =>
      rw [dedupByKeyFuel]
      simp
  | succ n ih =>
    intro l
    cases l with
    | nil => simp [dedupByKeyFuel]
    | cons x xs =>
      rw [dedupByKeyFuel]
      exact List.Sublist.cons₂ x ((ih _).trans (List.filter_sublist xs))

theorem dedupByKey_sublist {α κ : Type} [DecidableEq κ] (k : α → κ) (l : List α) :
    List.Sublist (dedupByKey k l) l :=
  dedupByKeyFuel_sublist k l.length l

theorem mem_of_mem_dedupByKey {α κ : Type} [DecidableEq κ] {k : α → κ} {l : List α}
    {a : α} (h : a ∈ dedupByKey k l) : a ∈ l :=
  (dedupByKey_sublist k l).subset h

theorem dedupByKeyFuel_pairwise {α κ : Type} [DecidableEq κ] (k : α → κ) :
    ∀ (n : Nat) (l : List α), l.length ≤ n →
      (dedupByKeyFuel k n l).Pairwise fun a b => k a ≠ k b := by
  intro n
  induction n with
  | zero =>
    intro l hl
    match l with
    | [] => simp [dedupByKeyFuel]
  | succ n ih =>
    intro l hl
    match l with
    | [] => simp [dedupByKeyFuel]
    | x :: xs =>
      rw [dedupByKeyFuel]
      refine List.pairwise_cons.mpr ⟨?_, ?_⟩
      · intro y hy
        have hyf : y ∈ xs.filter fun z => k z != k x :=
          (dedupByKeyFuel_sublist k n _).subset hy
        have := (List.mem_filter.mp hyf).2
        exact fun hk => by simp [hk] at this
      · exact ih _ (le_trans (List.length_filter_le _ _) (Nat.le_of_succ_le_succ hl))

theorem dedupByKey_pairwise {α κ : Type} [DecidableEq κ] (k : α → κ) (l : List α) :
    (dedupByKey k l).Pairwise fun a b => k a ≠ k b :=
  dedupByKeyFuel_pairwise k l.length l le_rfl

/-- A row kept by `dedupByKey` is the first of its key group: any same-key row
of the underlying list is the kept row itself or comes later (related to the
kept row by any relation the list is pairwise sorted under). -/
theorem dedupByKeyFuel_first {α κ : Type} [DecidableEq κ] (k : α → κ)
    {R : α → α → Prop} :
    ∀ (n : Nat) (l : List α), l.length ≤ n → l.Pairwise R →
      ∀ r ∈ dedupByKeyFuel k n l, ∀ s ∈ l, k s = k r → r = s ∨ R r s := by
  intro n
  induction n with
  | zero =>
    intro l hl
    match l with
    | [] => intro _ r hr; simp [dedupByKeyFuel] at hr
  | succ n ih =>
    intro l hl hp
    match l with
    | [] => intro r hr; simp [dedupByKeyFuel] at hr
    | x :: xs =>
      rw [dedupByKeyFuel]
      intro r hr s hs hk
      have hx := List.pairwise_cons.mp hp
      rcases List.mem_cons.mp hr with hrx | hrtail
      · subst hrx
        rcases List.mem_cons.mp hs with hsx | hsxs
        · exact Or.inl hsx.symm
        · exact Or.inr (hx.1 s hsxs)
      · have hrf : r ∈ xs.filter fun z => k z != k x :=
          (dedupByKeyFuel_sublist k n _).subset hrtail
        have hrne : k r ≠ k x := by
          have := (List.mem_filter.mp hrf).2
          exact fun hkk => by simp [hkk] at this
        rcases List.mem_cons.mp hs with hsx | hsxs
        · exact absurd (hsx ▸ hk) fun hh => hrne hh.symm
        · have hsf : s ∈ xs.filter fun z => k z != k x := by
            refine List.mem_filter.mpr ⟨hsxs, ?_⟩
            simpa using fun hh => hrne (hk ▸ hh)
          have hpf : (xs.filter fun z => k z != k x).Pairwise R :=
            hx.2.sublist (List.filter_sublist xs)
          exact ih _ (le_trans (List.length_filter_le _ _) (Nat.le_of_succ_le_succ hl))
            hpf r hrtail s hsf hk

theorem dedupByKey_first {α κ : Type} [DecidableEq κ] (k : α → κ)
    {R : α → α → Prop} {l : List α} (hp : l.Pairwise R) :
    ∀ r ∈ dedupByKey k l, ∀ s ∈ l, k s = k r → r = s ∨ R r s :=
  dedupByKeyFuel_first k l.length l le_rfl hp

/-! ## Properties of the trailer sort order -/

theorem loadGE_refl (x : Option Time) : loadGE x x := by
  match x with
  | none => exact trivial
  | some a => exact le_refl a

theorem loadGE_of_loadGT {x y : Option Time} (h : loadGT x y) : loadGE x y := by
  match x, y with
  | none, _ => exact absurd h id
  | some a, none => exact trivial
  | some a, some b => exact le_of_lt h

/-- A sorted-before row has a load timestamp at least as late (the shipment-id
tiebreak only applies between equal load timestamps). -/
theorem loadGE_of_trailerSortLE {a b : TrailerStageRow} (h : trailerSortLE a b) :
    loadGE a.loaded b.loaded := by
  rcases h with h | ⟨h, _⟩
  · exact loadGE_of_loadGT h
  · exact h ▸ loadGE_refl a.loaded

/-! ## Membership in the trailer cleaning stages -/

theorem mem_trailer_filtered {t : RawTrailerTable} {s : TrailerStageRow}
    (hs : s ∈ trailer_filtered t) :
    s.activityType = "CLOSED" ∧
      (s.visitType = "Pickup Load" ∨ s.visitType = "Live Load") ∧
      s.shipmentId ≠ "" := by
  unfold trailer_filtered at hs
  rcases List.mem_filterMap.mp hs with ⟨r, hr, hmatch⟩
  rcases List.mem_filter.mp hr with ⟨hr2, hship⟩
  rcases List.mem_map.mp hr2 with ⟨r0, hr0, hr0eq⟩
  rcases List.mem_filter.mp hr0 with ⟨hr3, hvisit⟩
  rcases List.mem_filter.mp hr3 with ⟨_, hact⟩
  match hA : r.appt, hC : r.checkout, hI : r.checkin with
  | some a, some co, some ci =>
    rw [hA, hC, hI] at hmatch
    simp only [Option.some.injEq] at hmatch
    have hsact : s.activityType = r.activityType := by rw [← hmatch]
    have hsvis : s.visitType = r.visitType := by rw [← hmatch]
    have hsship : s.shipmentId = r.shipmentIdRaw := by rw [← hmatch]
    have hract : r.activityType = r0.activityType := by rw [← hr0eq]
    have hrvis : r.visitType = r0.visitType := by rw [← hr0eq]
    refine ⟨?_, ?_, ?_⟩
    · rw [hsact, hract]; simpa using hact
    · rw [hsvis, hrvis]
      have hv := of_decide_eq_true hvisit
      simpa using hv
    · rw [hsship]; simpa using hship
  | none, _, _ => rw [hA] at hmatch; simp at hmatch
  | some _, none, _ => rw [hA, hC] at hmatch; simp at hmatch
  | some _, some _, none => rw [hA, hC, hI] at hmatch; simp at hmatch

/-! ## Properties of the derived dwell time -/

/-- The computed dwell is always null or strictly positive: the coercion of
app.py lines 37-38 nulls out any non-positive branch value. -/
theorem dwell_time_ok (r : FactRow) : dwellOk (dwell_time r) := by
  unfold dwell_time
  cases h : dwell_base r with
  | none => exact trivial
  | some v =>
    by_cases hv : v ≤ 0
    · simp only [if_pos hv]; exact trivial
    · simp only [if_neg hv]; exact lt_of_not_le hv

theorem dwell_time_none_of_loaded {r : FactRow} (h : r.loaded = none) :
    dwell_time r = none := by
  unfold dwell_time dwell_base
  rw [h]

theorem minOpt_ok {a b : Option Int} (ha : dwellOk a) (hb : dwellOk b) :
    dwellOk (minOpt a b) := by
  match a, b with
  | none, none => exact trivial
  | some x, none => exact ha
  | none, some y => exact hb
  | some x, some y => exact lt_min ha hb

/-! ## Lineage through the joins -/

theorem mem_merge1 {d : CleanDockTable} {o : List CleanOrderRow} {l : List MergedRow}
    (h : merge1 d o = .ok l) :
    (d.hasStatus && d.hasDwellTime) = true ∧
      ∀ mr ∈ l, ∃ dr ∈ d.rows, mr.dwellTime = dr.dwellTime ∧ mr.eventStatus = dr.status := by
  unfold merge1 at h
  by_cases hflag : (d.hasStatus && d.hasDwellTime) = true
  · rw [if_pos hflag] at h
    refine ⟨hflag, ?_⟩
    injection h with h
    subst h
    intro mr hmr
    rcases List.mem_flatten.mp hmr with ⟨blk, hblk, hmrblk⟩
    rcases List.mem_map.mp hblk with ⟨dr, hdr, rfl⟩
    cases hfil : o.filter (fun orow => orow.soNumber == dr.soNumber) with
    | nil =>
      rw [hfil] at hmrblk
      simp only [List.mem_singleton] at hmrblk
      exact ⟨dr, hdr, by rw [hmrblk], by rw [hmrblk]⟩
    | cons a as =>
      rw [hfil] at hmrblk
      rcases List.mem_map.mp hmrblk with ⟨orow, _, rfl⟩
      exact ⟨dr, hdr, rfl, rfl⟩
  · rw [if_neg hflag] at h
    exact absurd h (by simp)

theorem mem_merge2 {m : List Merged2Row} {t : TrailerTable} {l : List FactRow0}
    (h : merge2 m t = .ok l) :
    ∀ p ∈ l, ∃ mr ∈ m, p.dwellTime = mr.dwellTime ∧ p.eventStatus = mr.eventStatus ∧
      (p.compliance = none ∨ ∃ tr ∈ t.rows, p.compliance = some tr.compliance) := by
  unfold merge2 at h
  by_cases hflag : t.hasCarrier = true
  · rw [if_pos hflag] at h
    injection h with h
    subst h
    intro p hp
    rcases List.mem_flatten.mp hp with ⟨blk, hblk, hpblk⟩
    rcases List.mem_map.mp hblk with ⟨mr, hmr, rfl⟩
    cases hfil : t.rows.filter (fun tr => tr.shipmentId == mr.shipmentId) with
    | nil =>
      rw [hfil] at hpblk
      simp only [List.mem_singleton] at hpblk
      exact ⟨mr, hmr, by rw [hpblk], by rw [hpblk], Or.inl (by rw [hpblk])⟩
    | cons a as =>
      rw [hfil] at hpblk
      rcases List.mem_map.mp hpblk with ⟨tr, htr, rfl⟩
      have htr2 : tr ∈ t.rows := (List.mem_filter.mp (hfil ▸ htr)).1
      exact ⟨mr, hmr, rfl, rfl, Or.inr ⟨tr, htr2, rfl⟩⟩
  · rw [if_neg hflag] at h
    exact absurd h (by simp)

/-- Every cleaned-dock row carries the hour-converted, zero-filled dwell of
some raw dock row (when the dwell column exists; `none` otherwise). -/
theorem clean_open_dock_rows {t : RawDockTable} {c : CleanDockTable}
    (h : clean_open_dock t = .ok c) :
    c.hasDwellTime = t.hasDwellMins ∧
      ∀ cr ∈ c.rows, ∃ raw ∈ t.rows,
        cr.dwellTime = (if t.hasDwellMins then some (dockDwellHours raw.dwellMins) else none) ∧
        cr.status = (if t.hasStatus then raw.status else none) := by
  unfold clean_open_dock at h
  by_cases hso : t.hasSalesOrders = true
  · rw [if_pos hso] at h
    injection h with h
    subst h
    refine ⟨rfl, ?_⟩
    intro cr hcr
    rcases List.mem_map.mp hcr with ⟨r3, hr3, rfl⟩
    have hr2 : r3 ∈ (if t.hasDirection then
        (t.rows.map fun r => { r with salesOrders := cleanSalesOrders r.salesOrders }).filter
          (fun r => !(r.direction == some "Inbound"))
      else t.rows.map fun r => { r with salesOrders := cleanSalesOrders r.salesOrders }) := by
      have hr3b : r3 ∈ (if t.hasDirection then
          (t.rows.map fun r => { r with salesOrders := cleanSalesOrders r.salesOrders }).filter
            (fun r => !(r.direction == some "Inbound"))
        else t.rows.map fun r => { r with salesOrders := cleanSalesOrders r.salesOrders }).filter
          (fun r => r.salesOrders != "") := by
        by_cases hst : t.hasStatus = true
        · rw [if_pos hst] at hr3
          exact (List.mem_filter.mp hr3).1
        · rw [if_neg hst] at hr3
          exact hr3
      exact (List.mem_filter.mp hr3b).1
    have hr1 : r3 ∈ t.rows.map fun r => { r with salesOrders := cleanSalesOrders r.salesOrders } := by
      by_cases hdir : t.hasDirection = true
      · rw [if_pos hdir] at hr2
        exact (List.mem_filter.mp hr2).1
      · rw [if_neg hdir] at hr2
        exact hr2
    rcases List.mem_map.mp hr1 with ⟨raw, hraw, rfl⟩
    exact ⟨raw, hraw, rfl, rfl⟩
  · rw [if_neg hso] at h
    exact absurd h (by simp)

/-- The trailer cleaner only classifies compliance as `On Time` or `Late`. -/
theorem trailer_compliance_shape {t : RawTrailerTable} {tt : TrailerTable}
    (h : clean_trailer_activity t = .ok tt) :
    ∀ tr ∈ tt.rows, tr.compliance = "On Time" ∨ tr.compliance = "Late" := by
  unfold clean_trailer_activity at h
  by_cases hc : t.hasCols = true
  · rw [if_pos hc] at h
    injection h with h
    subst h
    intro tr htr
    rcases List.mem_map.mp htr with ⟨s, _, rfl⟩
    unfold mkFinal
    by_cases hle : s.checkin ≤ s.appt + (if s.visitType = "Live Load" then 15 else 1440)
    · exact Or.inl (by simp only [if_pos hle])
    · exact Or.inr (by simp only [if_neg hle])
  · rw [if_neg hc] at h
    exact absurd h (by simp)

/-! ## Lineage through the post-join block -/

theorem mem_postJoin {l : List FactRow0} {r : FactRow} (h : r ∈ postJoin l) :
    ∃ p ∈ l, r = applyDwell (dropEventStatus (applyNoShow p)) := by
  unfold postJoin at h
  rcases List.mem_map.mp h with ⟨q, hq, rfl⟩
  rcases List.mem_filter.mp hq with ⟨hq2, _⟩
  rcases List.mem_filter.mp hq2 with ⟨hq3, _⟩
  rcases List.mem_map.mp hq3 with ⟨q0, hq0, rfl⟩
  rcases List.mem_map.mp hq0 with ⟨p, hp, rfl⟩
  exact ⟨p, hp, rfl⟩

/-- Destructuring a non-empty fact table into its pipeline stages. -/
theorem mem_factOf {i : Inputs} {r : FactRow} (h : r ∈ factOf i) :
    ∃ d o tt m1 m2,
      clean_open_dock i.dock = .ok d ∧ clean_open_order i.order = .ok o ∧
        clean_trailer_activity i.trailer = .ok tt ∧ merge1 d o = .ok m1 ∧
        merge2 (m1.map normShip) tt = .ok m2 ∧ r ∈ postJoin m2 := by
  cases hd : clean_open_dock i.dock with
  | error e => exact absurd h (by unfold factOf pipelineRun; simp [hd])
  | ok d =>
  cases ho : clean_open_order i.order with
  | error e => exact absurd h (by unfold factOf pipelineRun; simp [hd, ho])
  | ok o =>
  cases ht : clean_trailer_activity i.trailer with
  | error e => exact absurd h (by unfold factOf pipelineRun; simp [hd, ho, ht])
  | ok tt =>
  cases hm1 : merge1 d o with
  | error e => exact absurd h (by unfold factOf pipelineRun; simp [hd, ho, ht, hm1])
  | ok m1 =>
  cases hemp : m1.isEmpty with
  | true => exact absurd h (by unfold factOf pipelineRun; simp [hd, ho, ht, hm1, hemp])
  | false =>
  cases hm2 : merge2 (m1.map normShip) tt with
  | error e =>
    exact absurd h (by unfold factOf pipelineRun; simp [hd, ho, ht, hm1, hemp, hm2])
  | ok m2 =>
  refine ⟨d, o, tt, m1, m2, rfl, rfl, rfl, hm1, hm2, ?_⟩
  have hfact : factOf i = if m2.isEmpty then [] else postJoin m2 := by
    unfold factOf pipelineRun
    simp only [hd, ho, ht, hm1, hemp, Bool.false_eq_true, if_false, hm2]
    cases h2 : m2.isEmpty with
    | true => simp [h2]
    | false => simp [h2]
  rw [hfact] at h
  cases h2 : m2.isEmpty with
  | true => rw [h2] at h; exact absurd h (by simp)
  | false => rw [h2] at h; exact h

/-! ## The claims -/

/-- C5: after the order cleaner runs (sort by appointment descending then
shipment id ascending, dedup first per Shipment ID then per SO Number), both
Shipment ID and SO Number are unique keys of the output: no two output rows
share a Shipment ID and no two share an SO Number. -/
theorem C5_order_unique_keys (t : RawOrderTable) :
    ((orderRowsOf t).Pairwise fun a b => a.shipmentId ≠ b.shipmentId) ∧
      ((orderRowsOf t).Pairwise fun a b => a.soNumber ≠ b.soNumber) := by
  cases h : clean_open_order t with
  | error e => simp [orderRowsOf, h]
  | ok l =>
    have hrows : orderRowsOf t = l := by simp [orderRowsOf, h]
    rw [hrows]
    obtain ⟨base, rfl⟩ : ∃ base, l = orderDeduped base := by
      unfold clean_open_order at h
      by_cases hflag : (t.hasAppt && t.hasSO && t.hasShipment && t.hasStatus) = true
      · rw [if_pos hflag] at h
        injection h with h
        exact ⟨_, h.symm⟩
      · rw [if_neg hflag] at h
        exact absurd h (by simp)
    unfold orderDeduped
    constructor
    · exact (dedupByKey_pairwise (fun r : CleanOrderRow => r.shipmentId) _).sublist
        (dedupByKey_sublist (fun r : CleanOrderRow => r.soNumber) _)
    · exact dedupByKey_pairwise (fun r : CleanOrderRow => r.soNumber) _

/-- C7: the claim says the dock cleaner drops every row whose `Status` is in
`{Arrived, Cancelled, InProgress, Scheduled}`.  The code's filter list
(cleaning_utils.py line 24) contains the typo `'Arrived,'` (trailing comma),
so a row with status exactly `Arrived` *survives*, contradicting the claim
and the code's own comment ("Remove rows that are not 'Completed' or
'NoShow'"); the other three statuses are dropped as claimed.  Evaluating the
cleaner on one row per status shows exactly the `Arrived` row remaining. -/
theorem C7_dock_status_filter_bug :
    dockRowsOf exDockC7 =
      [{ soNumber := "1001", dwellTime := some 50, status := some "Arrived" }] := by
  decide

/-- C9: an exception raised during cleaning or joining is caught at the
upload boundary, reported as a non-fatal warning, and the previously stored
fact table is left unchanged. -/
theorem C9_error_preserves_state (prev : List FactRow) (i : Inputs) (e : String)
    (h : pipelineRun i = .error e) : runUpload prev i = (prev, true) := by
  unfold runUpload
  rw [h]

/-- Witness for C9: on an upload whose order file is missing the appointment
column, the pipeline raises and the previous fact table survives. -/
theorem C9_error_preserves_state_witness :
    runUpload exPrev exInputsBad = (exPrev, true) :=
  C9_error_preserves_state exPrev exInputsBad "KeyError: Open Order column" rfl

/-- C10: the pipeline is deterministic and idempotent over its inputs —
re-running the upload boundary on the same input files reproduces the same
stored fact table (and the same warning behaviour). -/
theorem C10_pipeline_idempotent (prev : List FactRow) (i : Inputs) :
    runUpload (runUpload prev i).1 i = runUpload prev i := by
  unfold runUpload
  cases h : pipelineRun i with
  | error e => simp
  | ok o => cases o <;> simp

/-- C1 counterexample: the claim says the final Dwell Time is null or
strictly positive, and in particular that the fallback combination of the
zero-filled dock dwell and the computed dwell never yields a non-null value
`≤ 0`.  On an upload whose dock row has a *missing* dwell-minutes cell the
cleaner fills it with 0, and the final `min` yields the non-null value 0. -/
theorem C1_counterexample :
    (∃ r ∈ factOf exInputsC1, r.dwellTime = some 0) ∧
      ¬ ∀ r ∈ factOf exInputsC1, dwellOk r.dwellTime := by
  constructor <;> decide

/-- C8 counterexample: the claim says a non-numeric shipment id causes row
exclusion in *both* the order and trailer cleaners.  The order cleaner maps
it to the empty string (`fillna('')`, cleaning_utils.py line 89) and has no
emptiness filter, so the row survives with Shipment ID `""`. -/
theorem C8_counterexample :
    (∃ r ∈ orderRowsOf exOrderC8, r.shipmentId = "") ∧
      ¬ ∀ r ∈ orderRowsOf exOrderC8, r.shipmentId ≠ "" := by
  constructor <;> decide

/-- C3: for every row surviving the trailer cleaner, Required Time equals the
appointment plus 15 minutes for a `Live Load` and plus 24 hours otherwise,
and Compliance is `On Time` exactly when the (non-null, by the cleaner's
`dropna`) checkin is at most the Required Time, else `Late`. -/
theorem C3_required_time_and_compliance (t : RawTrailerTable) :
    ∀ r ∈ trailerRowsOf t, ∃ s ∈ trailer_deduped t, r = mkFinal s ∧
      r.requiredTime = s.appt + (if s.visitType = "Live Load" then 15 else 1440) ∧
      (r.compliance = "On Time" ↔ r.checkin ≤ r.requiredTime) ∧
      (r.compliance = "Late" ↔ ¬ r.checkin ≤ r.requiredTime) := by
  intro r hr
  cases h : clean_trailer_activity t with
  | error e => exact absurd hr (by simp [trailerRowsOf, h])
  | ok tt =>
    have hrows : trailerRowsOf t = tt.rows := by simp [trailerRowsOf, h]
    have htt : tt.rows = (trailer_deduped t).map mkFinal := by
      unfold clean_trailer_activity at h
      by_cases hcols : t.hasCols = true
      · rw [if_pos hcols] at h
        injection h with h
        rw [← h]
      · rw [if_neg hcols] at h
        exact absurd h (by simp)
    rw [hrows, htt] at hr
    obtain ⟨s, hs, rfl⟩ := List.mem_map.mp hr
    refine ⟨s, hs, rfl, rfl, ?_, ?_⟩
    · by_cases hle : s.checkin ≤ s.appt + (if s.visitType = "Live Load" then 15 else 1440)
      · simp [mkFinal, hle]
      · simp [mkFinal, hle]
    · by_cases hle : s.checkin ≤ s.appt + (if s.visitType = "Live Load" then 15 else 1440)
      · simp [mkFinal, hle]
      · simp [mkFinal, hle]

/-- Witness for C3: the standard trailer upload's row is classified `On
Time` exactly because its checkin (605) is at most its required time (615). -/
theorem C3_required_time_and_compliance_witness :
    exTrailerRow0.compliance = "On Time" ↔ exTrailerRow0.checkin ≤ exTrailerRow0.requiredTime := by
  obtain ⟨s, _, _, _, hiff, _⟩ :=
    C3_required_time_and_compliance exTrailerStd exTrailerRow0 (by decide)
  exact hiff

/-- C6: every row of the trailer cleaner's output descends from a `CLOSED`
activity, has a Visit Type in `{Pickup Load, Live Load}`, Shipment IDs are
pairwise distinct across the output, and the row retained for each Shipment
ID has a load timestamp at least as late as every surviving row with that
Shipment ID (nulls ranking last, as in the descending pandas sort). -/
theorem C6_trailer_invariants (t : RawTrailerTable) :
    ((trailerRowsOf t).Pairwise fun a b => a.shipmentId ≠ b.shipmentId) ∧
      ∀ r ∈ trailerRowsOf t,
        (r.visitType = "Pickup Load" ∨ r.visitType = "Live Load") ∧
        ∃ s ∈ trailer_deduped t, r = mkFinal s ∧ s.activityType = "CLOSED" ∧
          ∀ u ∈ trailer_filtered t, u.shipmentId = s.shipmentId →
            loadGE s.loaded u.loaded := by
  have httrows : ∀ tt, clean_trailer_activity t = .ok tt →
      tt.rows = (trailer_deduped t).map mkFinal := by
    intro tt h
    unfold clean_trailer_activity at h
    by_cases hcols : t.hasCols = true
    · rw [if_pos hcols] at h
      injection h with h
      rw [← h]
    · rw [if_neg hcols] at h
      exact absurd h (by simp)
  constructor
  · cases h : clean_trailer_activity t with
    | error e => simp [trailerRowsOf, h]
    | ok tt =>
      have hrows : trailerRowsOf t = tt.rows := by simp [trailerRowsOf, h]
      rw [hrows, httrows tt h]
      refine List.pairwise_map.mpr ?_
      exact (dedupByKey_pairwise (fun s : TrailerStageRow => s.shipmentId) _).imp fun hy => hy
  · intro r hr
    cases h : clean_trailer_activity t with
    | error e => exact absurd hr (by simp [trailerRowsOf, h])
    | ok tt =>
      have hrows : trailerRowsOf t = tt.rows := by simp [trailerRowsOf, h]
      rw [hrows, httrows tt h] at hr
      obtain ⟨s, hs, rfl⟩ := List.mem_map.mp hr
      have hs2 : s ∈ trailer_sorted t := mem_of_mem_dedupByKey hs
      have hs3 : s ∈ trailer_filtered t :=
        (List.perm_insertionSort trailerSortLE (trailer_filtered t)).subset hs2
      obtain ⟨hact, hvis, _⟩ := mem_trailer_filtered hs3
      refine ⟨hvis, s, hs, rfl, hact, ?_⟩
      intro u hu hkey
      have hu2 : u ∈ trailer_sorted t :=
        (List.perm_insertionSort trailerSortLE (trailer_filtered t)).mem_iff.mpr hu
      have hsorted : (trailer_sorted t).Pairwise trailerSortLE :=
        List.sorted_insertionSort trailerSortLE (trailer_filtered t)
      rcases dedupByKey_first (fun v : TrailerStageRow => v.shipmentId) hsorted s hs u hu2 hkey
        with heq | hrel
      · rw [← heq]
        exact loadGE_refl s.loaded
      · exact loadGE_of_trailerSortLE hrel

/-- Witness for C6: the standard trailer upload's row has an allowed visit
type. -/
theorem C6_trailer_invariants_witness :
    exTrailerRow0.visitType = "Pickup Load" ∨ exTrailerRow0.visitType = "Live Load" :=
  ((C6_trailer_invariants exTrailerStd).2 exTrailerRow0 (by decide)).1

/-- C8 (amended): the trailer cleaner excludes rows whose shipment id has no
digit run — every trailer-cleaner output row has a non-empty Shipment ID.
(The order cleaner instead keeps such rows with Shipment ID `""`, see the
counterexample.) -/
theorem C8_trailer_ship_nonempty (t : RawTrailerTable) :
    ∀ r ∈ trailerRowsOf t, r.shipmentId ≠ "" := by
  intro r hr
  cases h : clean_trailer_activity t with
  | error e => exact absurd hr (by simp [trailerRowsOf, h])
  | ok tt =>
    have hrows : trailerRowsOf t = tt.rows := by simp [trailerRowsOf, h]
    have htt : tt.rows = (trailer_deduped t).map mkFinal := by
      unfold clean_trailer_activity at h
      by_cases hcols : t.hasCols = true
      · rw [if_pos hcols] at h
        injection h with h
        rw [← h]
      · rw [if_neg hcols] at h
        exact absurd h (by simp)
    rw [hrows, htt] at hr
    obtain ⟨s, hs, rfl⟩ := List.mem_map.mp hr
    have hs3 : s ∈ trailer_filtered t :=
      (List.perm_insertionSort trailerSortLE (trailer_filtered t)).subset
        (mem_of_mem_dedupByKey hs)
    exact (mem_trailer_filtered hs3).2.2

/-- Witness for C8 (amended): the standard trailer upload's output row has a
non-empty Shipment ID. -/
theorem C8_trailer_ship_nonempty_witness : exTrailerRow0.shipmentId ≠ "" :=
  C8_trailer_ship_nonempty exTrailerStd exTrailerRow0 (by decide)

/-- C4: every fact row whose Compliance is `No Show` (forced exactly when the
dock event status is `NoShow`) has null Checkin, Checkout, Loaded and Dwell
Time, regardless of trailer-derived values. -/
theorem C4_noshow_forces_nulls (i : Inputs) :
    ∀ r ∈ factOf i, r.compliance = some "No Show" →
      r.checkin = none ∧ r.checkout = none ∧ r.loaded = none ∧ r.dwellTime = none := by
  intro r hr hc
  obtain ⟨d, o, tt, m1, m2, hd, ho, ht, hm1, hm2, hpj⟩ := mem_factOf hr
  obtain ⟨p, hp, rfl⟩ := mem_postJoin hpj
  by_cases hns : (p.eventStatus == some "NoShow") = true
  · refine ⟨?_, ?_, ?_, ?_⟩ <;>
      simp [applyDwell, dropEventStatus, applyNoShow, hns, dwell_time, dwell_base, minOpt]
  · exfalso
    have hc2 : p.compliance = some "No Show" := by
      simpa [applyDwell, dropEventStatus, applyNoShow, hns] using hc
    obtain ⟨mr, hmr, _, _, hshape⟩ := mem_merge2 hm2 p hp
    rcases hshape with hnone | ⟨tr, htr, hcomp⟩
    · rw [hc2] at hnone
      exact absurd hnone (by simp)
    · rw [hc2] at hcomp
      rcases trailer_compliance_shape ht tr htr with h1 | h1 <;> rw [h1] at hcomp <;>
        simp at hcomp

/-- Witness for C4: the `NoShow` upload yields a fact row whose compliance is
`No Show` and whose checkin, checkout, load and dwell fields are all null. -/
theorem C4_noshow_forces_nulls_witness :
    exFactNS.checkin = none ∧ exFactNS.checkout = none ∧ exFactNS.loaded = none ∧
      exFactNS.dwellTime = none :=
  C4_noshow_forces_nulls exInputsNS exFactNS (by decide) (by decide)

/-- C1 (amended): the *computed* dwell is always null or strictly positive;
the *final* Dwell Time (the null-skipping minimum of the dock-provided dwell
and the computed dwell) is null or strictly positive provided every dock
row's zero-filled, hour-converted dwell value is strictly positive.  Without
that proviso the claim fails: a missing dwell-minutes cell is filled with 0
and the minimum propagates it (see the counterexample). -/
theorem C1_dwell_null_or_positive :
    (∀ r : FactRow, dwellOk (dwell_time r)) ∧
      ∀ i : Inputs, (∀ raw ∈ i.dock.rows, 0 < dockDwellHours raw.dwellMins) →
        ∀ r ∈ factOf i, dwellOk r.dwellTime := by
  refine ⟨dwell_time_ok, ?_⟩
  intro i hpos r hr
  obtain ⟨d, o, tt, m1, m2, hd, ho, ht, hm1, hm2, hpj⟩ := mem_factOf hr
  obtain ⟨p, hp, rfl⟩ := mem_postJoin hpj
  have hdw : (applyDwell (dropEventStatus (applyNoShow p))).dwellTime =
      minOpt (dropEventStatus (applyNoShow p)).dwellTime
        (dwell_time (dropEventStatus (applyNoShow p))) := rfl
  rw [hdw]
  refine minOpt_ok ?_ (dwell_time_ok _)
  by_cases hns : (p.eventStatus == some "NoShow") = true
  · have hnone : (dropEventStatus (applyNoShow p)).dwellTime = none := by
      simp [dropEventStatus, applyNoShow, hns]
    rw [hnone]
    exact trivial
  · have hsame : (dropEventStatus (applyNoShow p)).dwellTime = p.dwellTime := by
      simp [dropEventStatus, applyNoShow, hns]
    rw [hsame]
    obtain ⟨mr2, hmr2, hdweq, _, _⟩ := mem_merge2 hm2 p hp
    obtain ⟨mr, hmr, rfl⟩ := List.mem_map.mp hmr2
    obtain ⟨hflag, hlin⟩ := mem_merge1 hm1
    obtain ⟨dr, hdr, hdw3, _⟩ := hlin mr hmr
    obtain ⟨hflagd, hrows⟩ := clean_open_dock_rows hd
    obtain ⟨raw, hraw, hdw4, _⟩ := hrows dr hdr
    have hdm : i.dock.hasDwellMins = true := by
      rw [← hflagd]
      have h2 : d.hasStatus = true ∧ d.hasDwellTime = true := by simpa using hflag
      exact h2.2
    have hdw2 : (normShip mr).dwellTime = mr.dwellTime := rfl
    rw [hdweq, hdw2, hdw3, hdw4, if_pos hdm]
    exact hpos raw hraw

/-- Witness for C1 (amended): on the fallback-example upload (90 dwell
minutes, so a positive dock dwell) the resulting fact row's dwell is null or
positive. -/
theorem C1_dwell_null_or_positive_witness : dwellOk exFactPos.dwellTime :=
  C1_dwell_null_or_positive.2 exInputsPos (by decide) exFactPos (by decide)

/-- C2: the derived dwell-time computation is null when the load timestamp is
null; is the load−appointment difference in (centi)hours for `On Time` rows
and the load−checkin difference for `Late` rows, with a non-positive value
coerced to null; is null for any other compliance; and the final Dwell Time
combines the dock dwell and the computed dwell by a null-skipping minimum.
On the spec's example (On Time, load two hours after the appointment, dock
dwell 1.5 h = 150 centihours) the computed dwell is 2.0 h = 200 and the
final dwell is 150. -/
theorem C2_dwell_computation :
    (∀ r : FactRow, r.loaded = none → dwell_time r = none) ∧
    (∀ (r : FactRow) (l a : Time), r.loaded = some l → r.compliance = some "On Time" →
      r.appointment = some a →
      dwell_time r = (if centiHours (l - a) ≤ 0 then none else some (centiHours (l - a)))) ∧
    (∀ (r : FactRow) (l c : Time), r.loaded = some l → r.compliance = some "Late" →
      r.checkin = some c →
      dwell_time r = (if centiHours (l - c) ≤ 0 then none else some (centiHours (l - c)))) ∧
    (∀ (r : FactRow) (l : Time), r.loaded = some l → r.compliance ≠ some "On Time" →
      r.compliance ≠ some "Late" → dwell_time r = none) ∧
    (∀ (r : FactRow) (v : Int), dwell_time r = some v → 0 < v) ∧
    (∀ x y : Int, minOpt (some x) (some y) = some (min x y)) ∧
    (∀ x : Int, minOpt (some x) none = some x ∧ minOpt none (some x) = some x) ∧
    minOpt none none = (none : Option Int) ∧
    dwell_time exFactC2 = some 200 ∧
    minOpt (some 150) (dwell_time exFactC2) = some 150 := by
  refine ⟨?_, ?_, ?_, ?_, ?_, fun x y => rfl, fun x => ⟨rfl, rfl⟩, rfl, by decide, by decide⟩
  · exact fun r h => dwell_time_none_of_loaded h
  · intro r l a hl hcomp ha
    simp [dwell_time, dwell_base, hl, hcomp, ha]
  · intro r l c hl hcomp hi
    simp [dwell_time, dwell_base, hl, hcomp, hi]
  · intro r l hl h1 h2
    simp [dwell_time, dwell_base, hl, if_neg h1, if_neg h2]
  · intro r v h
    have := dwell_time_ok r
    rw [h] at this
    exact this

/-- Witness for C2: the null-load branch on the all-null row, and the
`On Time` branch on the spec's example row. -/
theorem C2_dwell_computation_witness :
    dwell_time defFactRow = none ∧
      dwell_time exFactC2 =
        (if centiHours (720 - 600) ≤ 0 then none else some (centiHours (720 - 600))) :=
  ⟨C2_dwell_computation.1 defFactRow rfl,
    C2_dwell_computation.2.1 exFactC2 720 600 rfl rfl rfl⟩

end Bradshaw
